import Mathlib

/-!
Verification development for the `bolivia_transmission_network` scripts:
`download_bolivia_electricity_map.py`, `generate_qs_csv.py` and
`merge_qids_back.py`.

The Python code is shallowly embedded: pure functions become Lean
functions, the retry / pagination loops become bounded recursions, and
the wall clock that `main` reads through `time.time` / `time.sleep`
becomes an explicitly threaded clock value.  Machine words are modelled
as `Nat` with explicit `% 2 ^ 32` reductions, Python byte strings as
`List Nat`, and the float quantities that only enter additively
(backoff durations, throttle intervals) as `ℚ`.
-/

set_option maxHeartbeats 1600000

/-- Python substring prefix helper: is the first list a prefix of the second. -/
def lstartsWith [BEq α] : List α → List α → Bool
  | [], _ => true
  | _ :: _, [] => false
  | a :: as, b :: bs => a == b && lstartsWith as bs

/-- Python membership test `needle in hay` for sequences (contiguous occurrence). -/
def lcontains [BEq α] (needle : List α) : List α → Bool
  | [] => needle.isEmpty
  | b :: bs => lstartsWith needle (b :: bs) || lcontains needle bs

/-- Python substring test `needle in hay` on strings (by code points). -/
def strContains (hay needle : String) : Bool :=
  lcontains needle.data hay.data

/-- The double-quote character `chr(34)`. -/
def dquote : Char := Char.ofNat 34

/-- Python `str.lower()` as a pointwise character map (the inputs it is
applied to - content-type headers and server error text - are ASCII, for
which `Char.toLower` agrees with Python). -/
def strLower (s : String) : String :=
  String.mk (s.data.map Char.toLower)

/-- UTF-8 bytes of a string, as `Nat`s: models Python
`s.encode("utf-8", "ignore")` (the `ignore` handler only drops lone
surrogates, which Lean strings cannot contain). -/
def strBytes (s : String) : List Nat :=
  s.toUTF8.data.toList.map (fun b => b.toNat)

namespace SHA1

/-!
A complete SHA-1 (`hashlib.sha1`) over byte lists, used by the
`ext_token` helpers of `generate_qs_csv.py` and `merge_qids_back.py`.
32-bit words are `Nat`s kept below `2 ^ 32` by explicit reductions.
-/

/-- Rotate a 32-bit word left by `n` bits. -/
def rotl (n w : Nat) : Nat :=
  ((w <<< n) ||| (w >>> (32 - n))) % 2 ^ 32

/-- Big-endian 8-byte encoding of the 64-bit message bit length. -/
def lenBytes (n : Nat) : List Nat :=
  [n / 2 ^ 56 % 256, n / 2 ^ 48 % 256, n / 2 ^ 40 % 256, n / 2 ^ 32 % 256,
   n / 2 ^ 24 % 256, n / 2 ^ 16 % 256, n / 2 ^ 8 % 256, n % 256]

/-- SHA-1 padding: a `0x80` byte, zeros until the length is 56 mod 64,
then the big-endian bit length. -/
def pad (msg : List Nat) : List Nat :=
  let L := msg.length
  let r := (L + 1) % 64
  let z := (120 - r) % 64
  msg ++ [128] ++ List.replicate z 0 ++ lenBytes (L * 8)

/-- Split a byte list into 64-byte chunks. -/
def chunks (l : List Nat) : List (List Nat) :=
  if h : l = [] then [] else l.take 64 :: chunks (l.drop 64)
termination_by l.length
decreasing_by
  simp [List.length_drop]
  cases l with
  | nil => exact absurd rfl h
  | cons a as => simp

/-- Pack bytes into big-endian 32-bit words, four bytes per word. -/
def toWords : List Nat → List Nat
  | a :: b :: c :: d :: rest =>
    (a * 2 ^ 24 + b * 2 ^ 16 + c * 2 ^ 8 + d) :: toWords rest
  | _ => []

/-- Extend the sixteen chunk words to the eighty schedule words. -/
def extendWords (ws : List Nat) : List Nat :=
  (List.range 64).foldl
    (fun acc _ =>
      acc ++ [rotl 1 ((acc.getD (acc.length - 3) 0) ^^^ (acc.getD (acc.length - 8) 0) ^^^
        (acc.getD (acc.length - 14) 0) ^^^ (acc.getD (acc.length - 16) 0))])
    ws

/-- Running hash state: the five 32-bit words `h0 .. h4`. -/
structure H5 where
  h0 : Nat
  h1 : Nat
  h2 : Nat
  h3 : Nat
  h4 : Nat

/-- One round of the SHA-1 compression loop. -/
def round (w : List Nat) (s : Nat × Nat × Nat × Nat × Nat) (i : Nat) :
    Nat × Nat × Nat × Nat × Nat :=
  let (a, b, c, d, e) := s
  let f :=
    if i < 20 then (b &&& c) ||| ((b ^^^ 0xFFFFFFFF) &&& d)
    else if i < 40 then b ^^^ c ^^^ d
    else if i < 60 then (b &&& c) ||| (b &&& d) ||| (c &&& d)
    else b ^^^ c ^^^ d
  let k :=
    if i < 20 then 0x5A827999
    else if i < 40 then 0x6ED9EBA1
    else if i < 60 then 0x8F1BBCDC
    else 0xCA62C1D6
  let temp := (rotl 5 a + f + e + k + w.getD i 0) % 2 ^ 32
  (temp, a, rotl 30 b, c, d)

/-- Compress one 64-byte chunk into the hash state. -/
def processChunk (h : H5) (chunk : List Nat) : H5 :=
  let w := extendWords (toWords chunk)
  let fin := (List.range 80).foldl (round w) (h.h0, h.h1, h.h2, h.h3, h.h4)
  ⟨(h.h0 + fin.1) % 2 ^ 32, (h.h1 + fin.2.1) % 2 ^ 32, (h.h2 + fin.2.2.1) % 2 ^ 32,
   (h.h3 + fin.2.2.2.1) % 2 ^ 32, (h.h4 + fin.2.2.2.2) % 2 ^ 32⟩

/-- Big-endian bytes of a 32-bit word. -/
def wordBytes (w : Nat) : List Nat :=
  [w / 2 ^ 24 % 256, w / 2 ^ 16 % 256, w / 2 ^ 8 % 256, w % 256]

/-- The twenty digest bytes of a message. -/
def digestBytes (msg : List Nat) : List Nat :=
  let init : H5 := ⟨0x67452301, 0xEFCDAB89, 0x98BADCFE, 0x10325476, 0xC3D2E1F0⟩
  let fin := (chunks (pad msg)).foldl processChunk init
  wordBytes fin.h0 ++ wordBytes fin.h1 ++ wordBytes fin.h2 ++
    wordBytes fin.h3 ++ wordBytes fin.h4

/-- Lowercase hexadecimal digit for a value below sixteen. -/
def hexChar (n : Nat) : Char :=
  if n < 10 then Char.ofNat (48 + n) else Char.ofNat (87 + n)

/-- Lowercase hex rendering of a byte list, two digits per byte. -/
def bytesToHex : List Nat → List Char
  | [] => []
  | b :: bs => hexChar (b / 16 % 16) :: hexChar (b % 16) :: bytesToHex bs

/-- `hashlib.sha1(msg).hexdigest()` as a character list. -/
def hexdigest (msg : List Nat) : List Char :=
  bytesToHex (digestBytes msg)

end SHA1

namespace generate_qs_csv

/-- `generate_qs_csv.ext_token` (lines 64-66):
`basis = f"{fid}|{(coords_json or '')[:256]}"` followed by
`hashlib.sha1(basis.encode("utf-8", "ignore")).hexdigest()[:12]`.
Python string slicing acts on code points, hence `String.take` and a
`List.take` on the hex characters. -/
def ext_token (fid coords_json : String) : String :=
  let basis := fid ++ "|" ++ coords_json.take 256
  String.mk ((SHA1.hexdigest (strBytes basis)).take 12)

end generate_qs_csv

namespace merge_qids_back

/-- `merge_qids_back.ext_token` (lines 48-51), the reconciliation-time
recomputation: `sha1(fid + '|' + first 256 chars of coords_json)[:12]`. -/
def ext_token (fid coords_json : String) : String :=
  let basis := fid ++ "|" ++ coords_json.take 256
  String.mk ((SHA1.hexdigest (strBytes basis)).take 12)

/-- `c.replace(chr(34), "")` inside `build_sparql_for_codigos`: every
double-quote character is deleted, not escaped. -/
def strip_dquote (c : String) : String :=
  String.mk (c.data.filter (fun ch => ch != dquote))

/-- The VALUES literal built for one business key: `f'"{c.replace(chr(34), "")}"'`. -/
def sparql_value_literal (c : String) : String :=
  String.mk [dquote] ++ strip_dquote c ++ String.mk [dquote]

/-- `" ".join(f'"{...}"' for c in codes if c)`: empty keys are dropped by
the `if c` truthiness test, the rest become quoted literals. -/
def sparql_values (codes : List String) : String :=
  " ".intercalate ((codes.filter (fun c => c != "")).map sparql_value_literal)

/-- `build_sparql_for_codigos` (lines 81-96): the batched SPARQL lookup
query, with `LANG_DESC = "es"` interpolated. -/
def build_sparql_for_codigos (codes : List String) : String :=
  "\nSELECT ?item ?code ?desc WHERE \x7b\n  VALUES ?code \x7b " ++
    sparql_values codes ++
    " \x7d\n  ?item wdt:P528 ?code .\n  OPTIONAL \x7b\n    ?item schema:description ?desc .\n    FILTER (LANG(?desc) = \"es\")\n  \x7d\n\x7d\n"

/-- One candidate returned by the SPARQL query for a business key:
`{"qid": qid_from_uri(item), "desc": desc or ""}` (lines 180-183). -/
structure Hit where
  qid : String
  desc : String
deriving DecidableEq

/-- Per-row resolution (lines 197-217 of `main`): zero hits leave the row
unresolved, one hit resolves directly, several hits are filtered by the
literal tag `[EXT:<token>]` in the candidate description.  Returns the
chosen QID together with the increments applied to the `unresolved` and
`ambiguous` counters. -/
def resolve_row (hits : List Hit) (token : String) : Option String × Nat × Nat :=
  match hits with
  | [] => (none, 1, 0)
  | [h] => (some h.qid, 0, 0)
  | _ =>
    let tag := "[EXT:" ++ token ++ "]"
    let with_ext := hits.filter (fun h => strContains h.desc tag)
    match with_ext with
    | [h] => (some h.qid, 0, 0)
    | _ => (none, 0, 1)

/-- The resolution loop over all rows, each row a pair
`(Codigo, _ext_token)`; `code_to_hits.get(code, [])` is the lookup
function.  Produces the `chosen_qids` column and the final
`unresolved` / `ambiguous` counter values. -/
def resolve_rows (code_to_hits : String → List Hit) :
    List (String × String) → List (Option String) × Nat × Nat
  | [] => ([], 0, 0)
  | (code, token) :: rest =>
    let r := resolve_row (code_to_hits code) token
    let rs := resolve_rows code_to_hits rest
    (r.1 :: rs.1, r.2.1 + rs.2.1, r.2.2 + rs.2.2)

/-- `df["wikidata"] = [q if isinstance(q, str) else "" for q in chosen_qids]`
(line 219): unresolved rows get the empty identifier. -/
def wikidata_col (chosen : List (Option String)) : List String :=
  chosen.map (fun q => q.getD "")

/-- `THROTTLE_SECS = 2.8` as an exact rational. -/
def THROTTLE_SECS : ℚ := 14 / 5

/-- One pass of the batch loop (lines 169-191) acting on the explicit
wall clock `t`: `batch_start = time.time()`, the request and result
processing take `dur` seconds, then
`elapsed = time.time() - batch_start` and
`if elapsed < THROTTLE_SECS: time.sleep(THROTTLE_SECS - elapsed)`.
Returns the clock value at which the next batch starts. -/
def batch_step (throttle dur t : ℚ) : ℚ :=
  let batch_start := t
  let t1 := t + dur
  let elapsed := t1 - batch_start
  if elapsed < throttle then t1 + (throttle - elapsed) else t1

/-- Clock value at which batch `n` (0-based) starts, given the duration
of each batch request; batch 0 starts at clock 0. -/
def batch_start_time (throttle : ℚ) (dur : Nat → ℚ) : Nat → ℚ
  | 0 => 0
  | n + 1 => batch_step throttle (dur n) (batch_start_time throttle dur n)

end merge_qids_back

namespace download_map

/-! Embedding of `download_bolivia_electricity_map.py`. -/

/-- An HTTP response as far as `get_with_retries` inspects it: status
code, `Content-Type` header and body text. -/
structure Resp where
  status : Nat
  ctype : String
  body : String
deriving DecidableEq

/-- Exceptions thrown by `session.get` itself. -/
inductive NetFailure where
  | timeout : NetFailure
  | connError : NetFailure
deriving DecidableEq

/-- Outcome of one `session.get` call: either an exception or a response. -/
inductive AttemptOutcome where
  | exn (f : NetFailure) : AttemptOutcome
  | resp (r : Resp) : AttemptOutcome

/-- The errors `get_with_retries` can raise. -/
inductive ReqError where
  | netfail (f : NetFailure) : ReqError
  | retryableStatus (code : Nat) : ReqError
  | timeout400 : ReqError
  | httpStatus (code : Nat) : ReqError
  | htmlErrorPage : ReqError
deriving DecidableEq

/-- `_is_timeout_like_400` (lines 69-73): lowercase the text and look for
a timeout-indicating substring. -/
def is_timeout_like_400 (text : String) : Bool :=
  if text = "" then false
  else
    let t := strLower text
    strContains t "timeout" || strContains t "time out" || strContains t "timed out"

/-- `text_peek` (line 91): the first 4000 characters of the body
(Python slicing by code points, here a `List.take` on the characters),
taken only when the lowercased content type mentions `text/` or `html`. -/
def text_peek (r : Resp) : String :=
  let ctype := strLower r.ctype
  if strContains ctype "text/" || strContains ctype "html" then
    String.mk (r.body.data.take 4000)
  else ""

/-- The response-validation block of `get_with_retries` (lines 90-108):
retryable statuses, timeout-like 400s, `raise_for_status` (which raises
exactly for statuses in 400-599), and the 200-HTML-error-page check.
Returns the response on genuine success. -/
def classify (r : Resp) : Except ReqError Resp :=
  let peek := text_peek r
  if r.status = 429 ∨ r.status = 500 ∨ r.status = 502 ∨ r.status = 503 ∨ r.status = 504 then
    Except.error (ReqError.retryableStatus r.status)
  else if r.status = 400 ∧ is_timeout_like_400 peek then
    Except.error ReqError.timeout400
  else if r.status ≠ 200 ∧ 400 ≤ r.status ∧ r.status ≤ 599 then
    Except.error (ReqError.httpStatus r.status)
  else if strContains peek "<html" ∧ strContains peek "error" then
    Except.error ReqError.htmlErrorPage
  else
    Except.ok r

/-- One whole attempt of the `try` body: a thrown network exception
becomes an error, a received response goes through `classify`. -/
def runAttempt (o : AttemptOutcome) : Except ReqError Resp :=
  match o with
  | AttemptOutcome.exn f => Except.error (ReqError.netfail f)
  | AttemptOutcome.resp r => classify r

/-- The retry loop of `get_with_retries` (lines 84-115), entered with the
current value of `attempt` (0 at the top).  `respond k` is the outcome of
the k-th `session.get` call (1-based).  Returns the final result together
with the list of sleep durations, one per logged `[retry k/max]` line:
after failed attempt `k` the code sleeps
`backoff_base ** (attempt - 1) + 0.1 * attempt` seconds. -/
def get_with_retries_go (respond : Nat → AttemptOutcome) (max_retries : Nat)
    (backoff_base : ℚ) (attempt0 : Nat) : Except ReqError Resp × List ℚ :=
  let attempt := attempt0 + 1
  match runAttempt (respond attempt) with
  | Except.ok r => (Except.ok r, [])
  | Except.error e =>
    if hstop : attempt > max_retries then (Except.error e, [])
    else
      let sleep_s := backoff_base ^ (attempt - 1) + (1 / 10 : ℚ) * (attempt : ℚ)
      let rest := get_with_retries_go respond max_retries backoff_base attempt
      (rest.1, sleep_s :: rest.2)
termination_by max_retries + 1 - attempt0
decreasing_by omega

/-- `get_with_retries(url, ...)`: the loop started with `attempt = 0`. -/
def get_with_retries (respond : Nat → AttemptOutcome) (max_retries : Nat)
    (backoff_base : ℚ) : Except ReqError Resp × List ℚ :=
  get_with_retries_go respond max_retries backoff_base 0

/-- The retryable conditions named by the spec: network timeout,
connection failure, HTTP 429/500/502/503/504, or HTTP 400 whose peeked
body text is timeout-like. -/
def retry_condition (o : AttemptOutcome) : Prop :=
  match o with
  | AttemptOutcome.exn _ => True
  | AttemptOutcome.resp r =>
    (r.status = 429 ∨ r.status = 500 ∨ r.status = 502 ∨ r.status = 503 ∨ r.status = 504) ∨
      (r.status = 400 ∧ is_timeout_like_400 (text_peek r))

/-- Environment of `fetch_wfs_geojson` for one layer, with the remote
interaction abstracted per strategy.  `page start` is the feature list a
WFS 2.0.0 page request at `startIndex = start` yields (`none` when
`get_with_retries` raised, the content type was not JSON, or the body
failed to decode - the three `break` causes, lines 154-170).
`one_shot` and `layer_export` likewise give the parsed feature list of
the fallback requests, `none` when the request or the JSON parse threw. -/
structure WfsEnv (α : Type) where
  page : Nat → Option (List α)
  one_shot : Option (List α)
  layer_export : Option (List α)

/-- Which strategy produced the data - the `[SOURCE] USED:` report. -/
inductive FetchSource where
  | paginated : FetchSource
  | one_shot : FetchSource
  | layer_export : FetchSource
deriving DecidableEq

/-- The WFS 2.0.0 paginated `while True` loop of `fetch_wfs_geojson`
(lines 139-185): `some feats` is the in-loop `return` (a short non-empty
page), `none` any of the `break`s (request/parse failure, an empty page,
or more than 200 full pages).  `features` accumulates pages already
fetched; `attempts` counts full pages. -/
def fetch_pages (src : Nat → Option (List α)) (page_size : Nat)
    (start attempts : Nat) (features : List α) : Option (List α) :=
  match src start with
  | none => none
  | some page_feats =>
    if page_feats.isEmpty then none
    else
      let features := features ++ page_feats
      if page_feats.length < page_size then some features
      else if hcap : attempts + 1 > 200 then none
      else fetch_pages src page_size (start + page_size) (attempts + 1) features
termination_by 201 - attempts
decreasing_by omega

/-- `fetch_wfs_geojson` (lines 134-221): the three strategies in order,
each fallback used only when the previous one failed or yielded zero
features; exhaustion raises `RuntimeError`, modelled as `Except.error`. -/
def fetch_wfs_geojson (env : WfsEnv α) (page_size : Nat) :
    Except Unit (List α × FetchSource) :=
  match fetch_pages env.page page_size 0 0 [] with
  | some features => Except.ok (features, FetchSource.paginated)
  | none =>
    match env.one_shot with
    | some feats =>
      if ¬ feats.isEmpty then Except.ok (feats, FetchSource.one_shot)
      else
        match env.layer_export with
        | some feats2 =>
          if ¬ feats2.isEmpty then Except.ok (feats2, FetchSource.layer_export)
          else Except.error ()
        | none => Except.error ()
    | none =>
      match env.layer_export with
      | some feats2 =>
        if ¬ feats2.isEmpty then Except.ok (feats2, FetchSource.layer_export)
        else Except.error ()
      | none => Except.error ()

/-- The per-layer loop of `run` (lines 343-379): each dataset is fetched
inside `try`, a failure increments the failure counter and the loop
continues; successes extend the merged feature list.  Returns
`(successes, failures, merged)`. -/
def run_datasets (page_size : Nat) : List (WfsEnv α) → Nat × Nat × List α
  | [] => (0, 0, [])
  | env :: rest =>
    let r := run_datasets page_size rest
    match fetch_wfs_geojson env page_size with
    | Except.ok (feats, _) => (r.1 + 1, r.2.1, feats ++ r.2.2)
    | Except.error _ => (r.1, r.2.1 + 1, r.2.2)

/-- A JSON scalar as stored in a feature property map or the `id` slot:
a string, a number, a boolean or `null`.  Numbers carry their serialized
literal so no float formatting needs to be modelled. -/
inductive Jv where
  | str (s : String) : Jv
  | num (n : Int) : Jv
  | boolv (b : Bool) : Jv
  | null : Jv
deriving DecidableEq

/-- A GeoJSON coordinate tree: nested arrays of numeric literals (plus
`null`, the `geom.get("coordinates", None)` default).  Numbers carry the
form `json.dumps` prints for them. -/
inductive Json where
  | null : Json
  | num (lit : String) : Json
  | arr (xs : List Json) : Json

mutual
/-- `json.dumps(..., separators=(",", ":"))` on a coordinate tree. -/
def dumpJson : Json → String
  | Json.null => "null"
  | Json.num lit => lit
  | Json.arr xs => "[" ++ dumpJsonList xs ++ "]"
/-- Comma-joined compact dump of the elements of a JSON array. -/
def dumpJsonList : List Json → String
  | [] => ""
  | [x] => dumpJson x
  | x :: y :: xs => dumpJson x ++ "," ++ dumpJsonList (y :: xs)
end

/-- The geometry member of a raw feature: declared type plus coordinate
tree (`Json.null` when the `coordinates` key is absent). -/
structure Geometry where
  gtype : String
  coordinates : Json

/-- One raw record from the remote service, as `_flatten_transmission_rows`
reads it: optional native `id`, optional geometry, and the open property
mapping.  `id = none` models an absent key; a present key holds any `Jv`,
including the empty string or `null`. -/
structure Feature where
  id : Option Jv
  geometry : Option Geometry
  properties : List (String × Jv)

/-- `props["_feature_id"] = f.get("id", i)` (line 289): the native id
when the key is present, else the 1-based ordinal `i`. -/
def row_feature_id (i : Nat) (f : Feature) : Jv :=
  f.id.getD (Jv.num (i : Int))

/-- `geom.get("type", "")` after `geom = f.get("geometry") or {}` (line 291). -/
def row_geometry_type (f : Feature) : String :=
  match f.geometry with
  | some g => g.gtype
  | none => ""

/-- `json.dumps(geom.get("coordinates", None), ensure_ascii=False,
separators=(",", ":"))` (line 294); an absent geometry dumps `None`. -/
def row_coords_json (f : Feature) : String :=
  dumpJson (match f.geometry with
    | some g => g.coordinates
    | none => Json.null)

/-- A flat row: column name to scalar, `none` for an absent column.
Function-typed so that the dict updates of the source become pointwise
overrides. -/
def Row : Type := String → Option Jv

/-- Lookup in the original property dict of a feature. -/
def props_lookup (props : List (String × Jv)) (k : String) : Option Jv :=
  (props.find? (fun p => p.1 == k)).map (fun p => p.2)

/-- One row of `_flatten_transmission_rows` (lines 286-297): the original
properties with the three helper columns assigned on top (a dict
assignment overwrites any same-named property). -/
def flatten_row (i : Nat) (f : Feature) : Row := fun k =>
  if k = "_feature_id" then some (row_feature_id i f)
  else if k = "_geometry_type" then some (Jv.str (row_geometry_type f))
  else if k = "_coords_json" then some (Jv.str (row_coords_json f))
  else props_lookup f.properties k

/-- The `enumerate(feats, start=1)` loop of `_flatten_transmission_rows`. -/
def flatten_go (i : Nat) : List Feature → List Row
  | [] => []
  | f :: fs => flatten_row i f :: flatten_go (i + 1) fs

/-- `_flatten_transmission_rows` over the feature list of a collection. -/
def flatten_transmission_rows (feats : List Feature) : List Row :=
  flatten_go 1 feats

/-- A scalar is empty when it is the empty string or `null` - the values
that print as a blank CSV cell. -/
def jv_empty (v : Jv) : Prop :=
  v = Jv.str "" ∨ v = Jv.null

/-- `s.replace(",", ".")` on a single-character pattern: pointwise map. -/
def comma_to_dot (s : String) : String :=
  String.mk (s.data.map (fun ch => if ch = ',' then '.' else ch))

/-- The numeric-normalization loop of `_write_csv_strict` (lines 307-311):
only the `Pn` and `Sn` keys, and only when the stored value is a string,
get their commas replaced by periods; everything else is returned as is. -/
def normalize_pn_sn (r : Row) : Row := fun k =>
  if k = "Pn" ∨ k = "Sn" then
    match r k with
    | some (Jv.str s) => some (Jv.str (comma_to_dot s))
    | v => v
  else r k

/-- The normalization step applied to every row bound for the CSV. -/
def normalize_rows (rows : List Row) : List Row :=
  rows.map normalize_pn_sn

end download_map

/-! ### Theorems -/

theorem bytesToHex_length (l : List Nat) : (SHA1.bytesToHex l).length = 2 * l.length := by
  induction l with
  | nil => rfl
  | cons b bs ih =>
    simp only [SHA1.bytesToHex, List.length_cons, ih]
    omega

theorem digestBytes_length (msg : List Nat) : (SHA1.digestBytes msg).length = 20 := by
  simp [SHA1.digestBytes, SHA1.wordBytes]

theorem hexdigest_length (msg : List Nat) : (SHA1.hexdigest msg).length = 40 := by
  rw [SHA1.hexdigest, bytesToHex_length, digestBytes_length]

/-- C2.  The disambiguation-token computation is a pure function of the
pair (identity field, geometry serialization): both scripts hash
`fid ++ "|" ++` the first 256 characters of the coordinate serialization
with SHA-1 and keep 12 hex characters.  The emission-time function
`generate_qs_csv.ext_token` and the reconciliation-time function
`merge_qids_back.ext_token` agree on every input, and the token always
has exactly 12 characters. -/
theorem claim_C2_ext_token_agree (fid coords : String) :
    generate_qs_csv.ext_token fid coords = merge_qids_back.ext_token fid coords ∧
    (generate_qs_csv.ext_token fid coords).length = 12 := by
  refine ⟨rfl, ?_⟩
  have h : (generate_qs_csv.ext_token fid coords).length =
      ((SHA1.hexdigest (strBytes (fid ++ "|" ++ coords.take 256))).take 12).length := rfl
  rw [h, List.length_take, hexdigest_length]
  decide

/-- C7.  Only the designated numeric fields `Pn` and `Sn`, and only when
their values are strings, get commas replaced by periods in the
normalization step of `_write_csv_strict`; every other field of every
row is untouched. -/
theorem claim_C7_pn_sn_normalization (rows : List download_map.Row)
    (r : download_map.Row) (k : String) (hr : r ∈ rows) :
    download_map.normalize_rows rows = rows.map download_map.normalize_pn_sn ∧
    download_map.normalize_pn_sn r ∈ download_map.normalize_rows rows ∧
    (k ≠ "Pn" ∧ k ≠ "Sn" → download_map.normalize_pn_sn r k = r k) ∧
    (∀ s, (k = "Pn" ∨ k = "Sn") → r k = some (download_map.Jv.str s) →
      download_map.normalize_pn_sn r k =
        some (download_map.Jv.str (download_map.comma_to_dot s))) ∧
    ((k = "Pn" ∨ k = "Sn") → (∀ s, r k ≠ some (download_map.Jv.str s)) →
      download_map.normalize_pn_sn r k = r k) ∧
    download_map.comma_to_dot "1,23" = "1.23" := by
  refine ⟨rfl, List.mem_map_of_mem _ hr, ?_, ?_, ?_, by decide⟩
  · intro hk
    simp [download_map.normalize_pn_sn, hk.1, hk.2]
  · intro s hk hrk
    rcases hk with hk | hk <;> subst hk <;>
      simp [download_map.normalize_pn_sn, hrk]
  · intro hk hns
    have hb : k = "Pn" ∨ k = "Sn" := hk
    simp only [download_map.normalize_pn_sn, if_pos hb]

/-- Witness for C7 at a concrete row: the `Pn` value `"1,23"` is
rewritten to `"1.23"` while an undesignated field keeps its value. -/
theorem claim_C7_pn_sn_normalization_witness :
    download_map.normalize_pn_sn
        (fun k => if k = "Pn" then some (download_map.Jv.str "1,23")
          else if k = "AREA" then some (download_map.Jv.str "9,9") else none) "Pn" =
      some (download_map.Jv.str "1.23") ∧
    download_map.normalize_pn_sn
        (fun k => if k = "Pn" then some (download_map.Jv.str "1,23")
          else if k = "AREA" then some (download_map.Jv.str "9,9") else none) "AREA" =
      (fun k => if k = "Pn" then some (download_map.Jv.str "1,23")
          else if k = "AREA" then some (download_map.Jv.str "9,9") else none) "AREA" := by
  constructor
  · exact (claim_C7_pn_sn_normalization
      [fun k => if k = "Pn" then some (download_map.Jv.str "1,23")
        else if k = "AREA" then some (download_map.Jv.str "9,9") else none]
      (fun k => if k = "Pn" then some (download_map.Jv.str "1,23")
        else if k = "AREA" then some (download_map.Jv.str "9,9") else none)
      "Pn" (by simp)).2.2.2.1 "1,23" (Or.inl rfl) rfl
  · exact (claim_C7_pn_sn_normalization
      [fun k => if k = "Pn" then some (download_map.Jv.str "1,23")
        else if k = "AREA" then some (download_map.Jv.str "9,9") else none]
      (fun k => if k = "Pn" then some (download_map.Jv.str "1,23")
        else if k = "AREA" then some (download_map.Jv.str "9,9") else none)
      "AREA" (by simp)).2.2.1 ⟨by decide, by decide⟩

/-- C8.  With the throttle loop modelled on an explicit wall clock, the
span between the starts of two consecutive batch requests is never below
the configured minimum interval, whatever (non-negative) time each batch
request itself takes: after each batch the code measures the elapsed
time and sleeps out the remainder. -/
theorem claim_C8_rate_limit_floor (throttle : ℚ) (dur : Nat → ℚ) (n : Nat)
    (hdur : ∀ m, 0 ≤ dur m) :
    throttle ≤ merge_qids_back.batch_start_time throttle dur (n + 1) -
      merge_qids_back.batch_start_time throttle dur n := by
  have h := hdur n
  show throttle ≤ merge_qids_back.batch_step throttle (dur n)
      (merge_qids_back.batch_start_time throttle dur n) -
    merge_qids_back.batch_start_time throttle dur n
  simp only [merge_qids_back.batch_step]
  split
  · ring_nf
    linarith
  · rename_i hge
    ring_nf
    ring_nf at hge
    linarith

/-- Witness for C8 with the script's `THROTTLE_SECS = 2.8` and
instantaneous batch requests. -/
theorem claim_C8_rate_limit_floor_witness :
    merge_qids_back.THROTTLE_SECS ≤
      merge_qids_back.batch_start_time merge_qids_back.THROTTLE_SECS (fun _ => 0) 1 -
        merge_qids_back.batch_start_time merge_qids_back.THROTTLE_SECS (fun _ => 0) 0 :=
  claim_C8_rate_limit_floor merge_qids_back.THROTTLE_SECS (fun _ => 0) 0 (fun _ => le_refl 0)

/-- C10.  The batched lookup query omits empty business keys, every
embedded VALUES literal has its double quotes deleted (not escaped), and
two keys that agree after double-quote deletion yield the identical
literal. -/
theorem claim_C10_sparql_values (codes : List String) (c c₁ c₂ : String) :
    merge_qids_back.build_sparql_for_codigos codes =
      merge_qids_back.build_sparql_for_codigos (codes.filter (fun x => x != "")) ∧
    dquote ∉ (merge_qids_back.strip_dquote c).data ∧
    (c₁.data.filter (fun ch => ch != dquote) = c₂.data.filter (fun ch => ch != dquote) →
      merge_qids_back.sparql_value_literal c₁ = merge_qids_back.sparql_value_literal c₂) := by
  refine ⟨?_, ?_, ?_⟩
  · simp [merge_qids_back.build_sparql_for_codigos, merge_qids_back.sparql_values,
      List.filter_filter]
  · intro hmem
    have : (dquote != dquote) = true := (List.mem_filter.mp hmem).2
    simp at this
  · intro h
    simp only [merge_qids_back.sparql_value_literal, merge_qids_back.strip_dquote, h]

/-- Witness for C10: two distinct keys that differ only in embedded
double quotes produce the identical VALUES literal. -/
theorem claim_C10_sparql_values_witness :
    merge_qids_back.sparql_value_literal (String.mk ['a', dquote, 'b']) =
      merge_qids_back.sparql_value_literal (String.mk [dquote, 'a', 'b']) ∧
    String.mk ['a', dquote, 'b'] ≠ String.mk [dquote, 'a', 'b'] :=
  ⟨(claim_C10_sparql_values [] "" (String.mk ['a', dquote, 'b'])
      (String.mk [dquote, 'a', 'b'])).2.2 (by decide), by decide⟩

/-- C1.  Per-row reconciliation for a row with a non-empty business key:
zero candidates leave the resolved identifier empty and add one to the
unresolved count; a single candidate resolves to its identifier;
with several candidates, exactly one descriptor containing the literal
tag `[EXT:<token>]` resolves to that candidate, while zero or more than
one tag matches leave the row unresolved and add one to the ambiguous
count.  The head equation shows how the per-row outcome and the counter
increments enter the row loop. -/
theorem claim_C1_resolution (lookup : String → List merge_qids_back.Hit)
    (code token : String) (rest : List (String × String)) (hcode : code ≠ "") :
    merge_qids_back.resolve_rows lookup ((code, token) :: rest) =
      ((merge_qids_back.resolve_row (lookup code) token).1 ::
          (merge_qids_back.resolve_rows lookup rest).1,
        (merge_qids_back.resolve_row (lookup code) token).2.1 +
          (merge_qids_back.resolve_rows lookup rest).2.1,
        (merge_qids_back.resolve_row (lookup code) token).2.2 +
          (merge_qids_back.resolve_rows lookup rest).2.2) ∧
    (lookup code = [] →
      merge_qids_back.resolve_row (lookup code) token = (none, 1, 0) ∧
      merge_qids_back.wikidata_col [(merge_qids_back.resolve_row (lookup code) token).1] = [""]) ∧
    (∀ h, lookup code = [h] →
      merge_qids_back.resolve_row (lookup code) token = (some h.qid, 0, 0)) ∧
    (∀ h, 2 ≤ (lookup code).length →
      (lookup code).filter (fun x => strContains x.desc ("[EXT:" ++ token ++ "]")) = [h] →
      merge_qids_back.resolve_row (lookup code) token = (some h.qid, 0, 0)) ∧
    (2 ≤ (lookup code).length →
      ((lookup code).filter
        (fun x => strContains x.desc ("[EXT:" ++ token ++ "]"))).length ≠ 1 →
      merge_qids_back.resolve_row (lookup code) token = (none, 0, 1)) := by
  refine ⟨rfl, ?_, ?_, ?_, ?_⟩
  · intro hnil
    rw [hnil]
    exact ⟨rfl, rfl⟩
  · intro h hone
    rw [hone]
    rfl
  · intro h hlen hfilt
    cases hhits : lookup code with
    | nil => rw [hhits] at hlen; simp at hlen
    | cons x t =>
      cases t with
      | nil => rw [hhits] at hlen; simp at hlen
      | cons y t2 =>
        rw [hhits] at hfilt
        simp only [merge_qids_back.resolve_row, hfilt]
  · intro hlen hfilt
    cases hhits : lookup code with
    | nil => rw [hhits] at hlen; simp at hlen
    | cons x t =>
      cases t with
      | nil => rw [hhits] at hlen; simp at hlen
      | cons y t2 =>
        rw [hhits] at hfilt
        simp only [merge_qids_back.resolve_row]
        cases hf : (x :: y :: t2).filter
            (fun x => strContains x.desc ("[EXT:" ++ token ++ "]")) with
        | nil => rfl
        | cons w t3 =>
          cases t3 with
          | nil => rw [hf] at hfilt; simp at hfilt
          | cons w2 t4 => rfl

/-- Witness for C1, the tie-break example of the spec: business key `X`
maps to two candidates tagged `[EXT:abc123]` and `[EXT:def456]`; a row
with token `abc123` resolves to the first candidate and a row whose
token matches neither is ambiguous. -/
theorem claim_C1_resolution_witness :
    merge_qids_back.resolve_row
        ((fun c => if c = "X" then
            [merge_qids_back.Hit.mk "Q1" "foo [EXT:abc123]",
             merge_qids_back.Hit.mk "Q2" "bar [EXT:def456]"] else []) "X") "abc123" =
      (some "Q1", 0, 0) ∧
    merge_qids_back.resolve_row
        ((fun c => if c = "X" then
            [merge_qids_back.Hit.mk "Q1" "foo [EXT:abc123]",
             merge_qids_back.Hit.mk "Q2" "bar [EXT:def456]"] else []) "X") "zzz" =
      (none, 0, 1) := by
  constructor
  · exact (claim_C1_resolution
      (fun c => if c = "X" then
        [merge_qids_back.Hit.mk "Q1" "foo [EXT:abc123]",
         merge_qids_back.Hit.mk "Q2" "bar [EXT:def456]"] else [])
      "X" "abc123" [] (by decide)).2.2.2.1
      (merge_qids_back.Hit.mk "Q1" "foo [EXT:abc123]") (by decide) (by decide)
  · exact (claim_C1_resolution
      (fun c => if c = "X" then
        [merge_qids_back.Hit.mk "Q1" "foo [EXT:abc123]",
         merge_qids_back.Hit.mk "Q2" "bar [EXT:def456]"] else [])
      "X" "zzz" [] (by decide)).2.2.2.2 (by decide) (by decide)


theorem exists_error_of_retry_condition (o : download_map.AttemptOutcome)
    (h : download_map.retry_condition o) :
    ∃ e, download_map.runAttempt o = Except.error e := by
  cases o with
  | exn f => exact ⟨download_map.ReqError.netfail f, rfl⟩
  | resp r =>
    rcases h with hset | h400
    · refine ⟨download_map.ReqError.retryableStatus r.status, ?_⟩
      simp [download_map.runAttempt, download_map.classify, hset]
    · refine ⟨download_map.ReqError.timeout400, ?_⟩
      have hs : r.status = 400 := h400.1
      simp [download_map.runAttempt, download_map.classify, hs, h400.2]

theorem go_all_fail (respond : Nat → download_map.AttemptOutcome) (mr : Nat) (base : ℚ) :
    ∀ n a, a + n = mr →
    (∀ k, a + 1 ≤ k → k ≤ mr + 1 → ∃ e, download_map.runAttempt (respond k) = Except.error e) →
    ∃ e, download_map.runAttempt (respond (mr + 1)) = Except.error e ∧
      download_map.get_with_retries_go respond mr base a =
        (Except.error e,
          (List.range' (a + 1) (mr - a)).map
            (fun t : Nat => base ^ (t - 1) + (1 / 10 : ℚ) * (t : ℚ))) := by
  intro n
  induction n with
  | zero =>
    intro a ha hfail
    have ha' : a = mr := by omega
    subst ha'
    obtain ⟨e, he⟩ := hfail (a + 1) (by omega) (by omega)
    refine ⟨e, he, ?_⟩
    rw [download_map.get_with_retries_go]
    simp only [he]
    rw [dif_pos (by omega : a + 1 > a)]
    simp
  | succ n ih =>
    intro a ha hfail
    obtain ⟨e₁, he₁⟩ := hfail (a + 1) (by omega) (by omega)
    obtain ⟨e, he, hgo⟩ := ih (a + 1) (by omega)
      (fun k hk1 hk2 => hfail k (by omega) hk2)
    refine ⟨e, he, ?_⟩
    rw [download_map.get_with_retries_go]
    simp only [he₁]
    rw [dif_neg (by omega : ¬ a + 1 > mr)]
    rw [hgo]
    have hr : mr - a = (mr - (a + 1)) + 1 := by omega
    rw [hr, List.range'_succ]
    simp

/-- C4.  A request whose every attempt fails with one of the retryable
conditions (network timeout, connection failure, HTTP 429/500/502/503/504,
or a timeout-flavored HTTP 400) performs exactly `max_retries` logged
retry sleeps, the k-th lasting `base ^ (k - 1) + 0.1 * k` seconds
(`jitter(k) = 0.1 * k`), and then re-raises the error of the final
attempt to the caller. -/
theorem claim_C4_retry_bound (respond : Nat → download_map.AttemptOutcome)
    (max_retries : Nat) (base : ℚ)
    (hfail : ∀ k, download_map.retry_condition (respond k)) :
    ∃ e, download_map.runAttempt (respond (max_retries + 1)) = Except.error e ∧
      download_map.get_with_retries respond max_retries base =
        (Except.error e,
          (List.range max_retries).map
            (fun i : Nat => base ^ i + (1 / 10 : ℚ) * ((i : ℚ) + 1))) := by
  obtain ⟨e, he, hgo⟩ := go_all_fail respond max_retries base max_retries 0 (by omega)
    (fun k _ _ => exists_error_of_retry_condition (respond k) (hfail k))
  refine ⟨e, he, ?_⟩
  rw [download_map.get_with_retries, hgo]
  congr 1
  simp only [Nat.sub_zero, Nat.zero_add]
  rw [List.range'_eq_map_range, List.map_map]
  apply List.map_congr_left
  intro i hi
  simp only [Function.comp_apply]
  have h1 : 1 + i - 1 = i := by omega
  rw [h1]
  push_cast
  ring

/-- Witness for C4: a server answering 503 on every attempt, two allowed
retries, backoff base 8/5: both logged sleeps appear, then the 503 error
of the third attempt is re-raised. -/
theorem claim_C4_retry_bound_witness :
    download_map.get_with_retries
        (fun _ => download_map.AttemptOutcome.resp
          (download_map.Resp.mk 503 "" "")) 2 (8 / 5) =
      (Except.error (download_map.ReqError.retryableStatus 503),
        (List.range 2).map
          (fun i : Nat => (8 / 5 : ℚ) ^ i + (1 / 10 : ℚ) * ((i : ℚ) + 1))) := by
  obtain ⟨e, he, hgo⟩ := claim_C4_retry_bound
    (fun _ => download_map.AttemptOutcome.resp (download_map.Resp.mk 503 "" "")) 2 (8 / 5)
    (fun k => Or.inl (Or.inr (Or.inr (Or.inr (Or.inl rfl)))))
  have h503 : download_map.runAttempt
      (download_map.AttemptOutcome.resp (download_map.Resp.mk 503 "" "")) =
      Except.error (download_map.ReqError.retryableStatus 503) := rfl
  rw [he] at h503
  rw [hgo, Except.error.inj h503]

theorem fetch_pages_none_of_page0_none {α : Type} (src : Nat → Option (List α))
    (page_size : Nat) (h : src 0 = none) :
    download_map.fetch_pages src page_size 0 0 [] = none := by
  rw [download_map.fetch_pages, h]

/-- Counterexample to C5 as stated: an HTTP 200 text/html response whose
body contains `<html` and `error` is raised as `HTTPError` inside the
`try` block, and `requests.HTTPError` is caught by the retry handler, so
the response IS retried within the same request - the retry/sleep trace
of `get_with_retries` is non-empty, against the claim that such a
response is not retried. -/
theorem claim_C5_counterexample :
    download_map.classify (download_map.Resp.mk 200 "text/html" "<html>an error page</html>") =
      Except.error download_map.ReqError.htmlErrorPage ∧
    (download_map.get_with_retries
        (fun _ => download_map.AttemptOutcome.resp
          (download_map.Resp.mk 200 "text/html" "<html>an error page</html>")) 2 (8 / 5)).2 ≠
      [] := by
  have hclass : download_map.classify
      (download_map.Resp.mk 200 "text/html" "<html>an error page</html>") =
      Except.error download_map.ReqError.htmlErrorPage := rfl
  refine ⟨hclass, ?_⟩
  obtain ⟨e, he, hgo⟩ := go_all_fail
    (fun _ => download_map.AttemptOutcome.resp
      (download_map.Resp.mk 200 "text/html" "<html>an error page</html>")) 2 (8 / 5) 2 0
    (by omega) (fun k _ _ => ⟨download_map.ReqError.htmlErrorPage, hclass⟩)
  rw [download_map.get_with_retries, hgo]
  simp [List.range']

/-- C5 amended.  An HTTP 200 response whose peeked body is HTML with an
error marker is rejected by the client as a failure, but it IS retried
within the same request like the other retryable conditions: with such a
response on every attempt the client sleeps `max_retries` times and then
re-raises the error; the terminal failure is what drives the fetch
pipeline to the next strategy. -/
theorem claim_C5_amended (r : download_map.Resp) (max_retries : Nat) (base : ℚ)
    (env : download_map.WfsEnv Nat) (fs : List Nat) (page_size : Nat)
    (h200 : r.status = 200)
    (hhtml : strContains (download_map.text_peek r) "<html" = true)
    (herr : strContains (download_map.text_peek r) "error" = true) :
    download_map.classify r = Except.error download_map.ReqError.htmlErrorPage ∧
    (∃ trace,
      download_map.get_with_retries (fun _ => download_map.AttemptOutcome.resp r)
          max_retries base =
        (Except.error download_map.ReqError.htmlErrorPage, trace) ∧
      trace.length = max_retries) ∧
    (env.page 0 = none → env.one_shot = some fs → fs.isEmpty = false →
      download_map.fetch_wfs_geojson env page_size =
        Except.ok (fs, download_map.FetchSource.one_shot)) := by
  have hclass : download_map.classify r = Except.error download_map.ReqError.htmlErrorPage := by
    simp [download_map.classify, h200, hhtml, herr]
  refine ⟨hclass, ?_, ?_⟩
  · obtain ⟨e, he, hgo⟩ := go_all_fail
      (fun _ => download_map.AttemptOutcome.resp r) max_retries base max_retries 0
      (by omega) (fun k _ _ => ⟨download_map.ReqError.htmlErrorPage, hclass⟩)
    have heq : e = download_map.ReqError.htmlErrorPage := by
      have h2 : download_map.runAttempt (download_map.AttemptOutcome.resp r) =
          Except.error download_map.ReqError.htmlErrorPage := hclass
      rw [he] at h2
      exact Except.error.inj h2
    refine ⟨(List.range' 1 max_retries).map
      (fun t : Nat => base ^ (t - 1) + (1 / 10 : ℚ) * (t : ℚ)), ?_, ?_⟩
    · rw [download_map.get_with_retries, hgo, heq]
      norm_num
    · simp
  · intro hp hos hfs
    have hnone := fetch_pages_none_of_page0_none env.page page_size hp
    rw [download_map.fetch_wfs_geojson, hnone, hos]
    simp [hfs]

/-- Witness for C5 (amended): a concrete 200 text/html error page with
one allowed retry sleeps once and re-raises; a pipeline whose first page
request fails falls back to the non-empty one-shot strategy. -/
theorem claim_C5_amended_witness :
    download_map.classify (download_map.Resp.mk 200 "text/html" "<html>an error page</html>") =
      Except.error download_map.ReqError.htmlErrorPage ∧
    (∃ trace,
      download_map.get_with_retries
          (fun _ => download_map.AttemptOutcome.resp
            (download_map.Resp.mk 200 "text/html" "<html>an error page</html>")) 1 2 =
        (Except.error download_map.ReqError.htmlErrorPage, trace) ∧
      trace.length = 1) ∧
    download_map.fetch_wfs_geojson
        (download_map.WfsEnv.mk (fun _ => none) (some [7]) none) 5 =
      Except.ok ([7], download_map.FetchSource.one_shot) := by
  have h := claim_C5_amended
    (download_map.Resp.mk 200 "text/html" "<html>an error page</html>") 1 2
    (download_map.WfsEnv.mk (fun _ => none) (some [7]) none) [7] 5
    rfl (by decide) (by decide)
  exact ⟨h.1, h.2.1, h.2.2 rfl rfl rfl⟩

theorem list_isEmpty_false_of_length_pos {α : Type} (l : List α) (h : 0 < l.length) :
    l.isEmpty = false := by
  cases l with
  | nil => simp at h
  | cons a as => rfl

theorem fetch_pages_eq_some {α : Type} (src : Nat → Option (List α))
    (N start attempts : Nat) (acc p : List α) (hp : src start = some p) :
    download_map.fetch_pages src N start attempts acc =
      (if p.isEmpty = true then none
       else
         if p.length < N then some (acc ++ p)
         else if attempts + 1 > 200 then none
         else download_map.fetch_pages src N (start + N) (attempts + 1) (acc ++ p)) := by
  rw [download_map.fetch_pages, hp]
  rfl

theorem fetch_pages_full_step {α : Type} (src : Nat → Option (List α))
    (N start attempts : Nat) (acc p : List α)
    (hp : src start = some p) (hlen : p.length = N) (hN : 0 < N)
    (hcap : attempts + 1 ≤ 200) :
    download_map.fetch_pages src N start attempts acc =
      download_map.fetch_pages src N (start + N) (attempts + 1) (acc ++ p) := by
  rw [fetch_pages_eq_some src N start attempts acc p hp]
  have he : p.isEmpty = false :=
    list_isEmpty_false_of_length_pos p (by omega)
  rw [if_neg (by simp [he])]
  rw [if_neg (by rw [hlen]; exact lt_irrefl N)]
  rw [if_neg (by omega : ¬ attempts + 1 > 200)]

theorem fetch_pages_final_step {α : Type} (src : Nat → Option (List α))
    (N start attempts : Nat) (acc p : List α)
    (hp : src start = some p) (hpos : 0 < p.length) (hshort : p.length < N) :
    download_map.fetch_pages src N start attempts acc = some (acc ++ p) := by
  rw [fetch_pages_eq_some src N start attempts acc p hp]
  rw [if_neg (by simp [list_isEmpty_false_of_length_pos p hpos])]
  rw [if_pos hshort]

theorem fetch_pages_empty_page {α : Type} (src : Nat → Option (List α))
    (N start attempts : Nat) (acc : List α) (hp : src start = some []) :
    download_map.fetch_pages src N start attempts acc = none := by
  rw [fetch_pages_eq_some src N start attempts acc [] hp]
  rfl

theorem fetch_pages_cap {α : Type} (src : Nat → Option (List α)) (N : Nat)
    (pg : Nat → List α) (hsrc : ∀ s, src s = some (pg s))
    (hlen : ∀ s, (pg s).length = N) (hN : 0 < N) :
    ∀ n start attempts acc, attempts + n = 200 →
      download_map.fetch_pages src N start attempts acc = none := by
  intro n
  induction n with
  | zero =>
    intro start attempts acc ha
    rw [fetch_pages_eq_some src N start attempts acc (pg start) (hsrc start)]
    rw [if_neg (by simp [list_isEmpty_false_of_length_pos (pg start) (by rw [hlen]; omega)])]
    rw [if_neg (by rw [hlen]; exact lt_irrefl N)]
    rw [if_pos (by omega : attempts + 1 > 200)]
  | succ n ih =>
    intro start attempts acc ha
    rw [fetch_pages_full_step src N start attempts acc (pg start) (hsrc start) (hlen start)
      hN (by omega)]
    exact ih (start + N) (attempts + 1) (acc ++ pg start) (by omega)

/-- Counterexample to C3 as stated: with page size `N = 1` and a source
returning pages of sizes `[1, 1, 1, 0]` (so `k = 0 < N`), the paginated
loop hits the empty page, `break`s, discards the three collected
features and falls through to the fallbacks; with both fallbacks failing
the fetch errors instead of returning `3 * N + k = 3` records with the
paginated source. -/
theorem claim_C3_counterexample :
    download_map.fetch_wfs_geojson
        (download_map.WfsEnv.mk
          (fun s => if s < 3 then some [5] else some ([] : List Nat)) none none) 1 =
      Except.error () ∧
    download_map.fetch_wfs_geojson
        (download_map.WfsEnv.mk
          (fun s => if s < 3 then some [5] else some ([] : List Nat)) none none) 1 ≠
      Except.ok ([5, 5, 5], download_map.FetchSource.paginated) := by
  have hfp : download_map.fetch_pages
      (fun s => if s < 3 then some [5] else some ([] : List Nat)) 1 0 0 [] = none := by
    rw [fetch_pages_full_step _ 1 0 0 [] [5] rfl rfl (by omega) (by omega)]
    rw [fetch_pages_full_step _ 1 (0 + 1) (0 + 1) ([] ++ [5]) [5] rfl rfl (by omega) (by omega)]
    rw [fetch_pages_full_step _ 1 (0 + 1 + 1) (0 + 1 + 1) ([] ++ [5] ++ [5]) [5] rfl rfl
      (by omega) (by omega)]
    exact fetch_pages_empty_page _ 1 (0 + 1 + 1 + 1) (0 + 1 + 1 + 1) ([] ++ [5] ++ [5] ++ [5]) rfl
  have h1 : download_map.fetch_wfs_geojson
      (download_map.WfsEnv.mk
        (fun s => if s < 3 then some [5] else some ([] : List Nat)) none none) 1 =
      Except.error () := by
    rw [download_map.fetch_wfs_geojson]
    rw [hfp]
  exact ⟨h1, by rw [h1]; simp⟩

/-- C3 amended.  For pages of sizes `[N, N, N, k]` with `0 < k < N` the
paginated strategy returns exactly `3 * N + k` records and reports the
paginated source (a short NON-EMPTY page is the normal stop condition;
an empty page instead aborts the paginated strategy and falls through to
the fallbacks), and a source that keeps answering full pages hits the
201-page safety cap, which is a failure of the paginated strategy, not a
success. -/
theorem claim_C3_pagination (env : download_map.WfsEnv Nat) (N k : Nat)
    (p0 p1 p2 p3 : List Nat) :
    (env.page 0 = some p0 → env.page N = some p1 → env.page (2 * N) = some p2 →
      env.page (3 * N) = some p3 →
      p0.length = N → p1.length = N → p2.length = N → p3.length = k →
      0 < k → k < N →
      download_map.fetch_wfs_geojson env N =
        Except.ok (p0 ++ p1 ++ p2 ++ p3, download_map.FetchSource.paginated) ∧
      (p0 ++ p1 ++ p2 ++ p3).length = 3 * N + k) ∧
    (∀ pg : Nat → List Nat, (∀ s, env.page s = some (pg s)) →
      (∀ s, (pg s).length = N) → 0 < N →
      download_map.fetch_pages env.page N 0 0 [] = none) := by
  constructor
  · intro h0 h1 h2 h3 hl0 hl1 hl2 hl3 hk hkN
    have hN : 0 < N := by omega
    have hfp : download_map.fetch_pages env.page N 0 0 [] =
        some ([] ++ p0 ++ p1 ++ p2 ++ p3) := by
      rw [fetch_pages_full_step env.page N 0 0 [] p0 h0 hl0 hN (by omega)]
      rw [fetch_pages_full_step env.page N (0 + N) (0 + 1) ([] ++ p0) p1
        (by rw [Nat.zero_add]; exact h1) hl1 hN (by omega)]
      rw [fetch_pages_full_step env.page N (0 + N + N) (0 + 1 + 1) ([] ++ p0 ++ p1) p2
        (by rw [show 0 + N + N = 2 * N by ring]; exact h2) hl2 hN (by omega)]
      exact fetch_pages_final_step env.page N (0 + N + N + N) (0 + 1 + 1 + 1)
        ([] ++ p0 ++ p1 ++ p2) p3
        (by rw [show 0 + N + N + N = 3 * N by ring]; exact h3)
        (by omega) (by omega)
    constructor
    · rw [download_map.fetch_wfs_geojson, hfp]
      simp
    · simp [List.length_append, hl0, hl1, hl2, hl3]
      ring
  · intro pg hsrc hlen hN
    exact fetch_pages_cap env.page N pg hsrc hlen hN 200 0 0 [] (by omega)

/-- Witness for C3 (amended): page size 2, pages `[2, 2, 2, 1]` give the
seven collected features with the paginated source, and an always-full
source is aborted by the page cap. -/
theorem claim_C3_pagination_witness :
    download_map.fetch_wfs_geojson
        (download_map.WfsEnv.mk
          (fun s => if s = 0 then some [10, 11] else if s = 2 then some [12, 13]
            else if s = 4 then some [14, 15] else if s = 6 then some [16] else none)
          none none) 2 =
      Except.ok ([10, 11] ++ [12, 13] ++ [14, 15] ++ [16],
        download_map.FetchSource.paginated) ∧
    ([10, 11] ++ [12, 13] ++ [14, 15] ++ ([16] : List Nat)).length = 3 * 2 + 1 ∧
    download_map.fetch_pages
      (download_map.WfsEnv.mk (fun _ => some [5, 5]) none
        (none : Option (List Nat))).page 2 0 0 [] = none := by
  have h := claim_C3_pagination
    (download_map.WfsEnv.mk
      (fun s => if s = 0 then some [10, 11] else if s = 2 then some [12, 13]
        else if s = 4 then some [14, 15] else if s = 6 then some [16] else none)
      none none) 2 1 [10, 11] [12, 13] [14, 15] [16]
  obtain ⟨ha, hb⟩ := h.1 rfl rfl rfl rfl rfl rfl rfl rfl (by omega) (by omega)
  refine ⟨ha, hb, ?_⟩
  exact (claim_C3_pagination
    (download_map.WfsEnv.mk (fun _ => some [5, 5]) none none) 2 1 [] [] [] []).2
    (fun _ => [5, 5]) (fun s => rfl) (fun s => rfl) (by omega)

/-- C6.  The fetch pipeline tries paginated, one-shot and layer-export in
strict order, moving on only when the previous strategy failed or
yielded zero records; with all three empty or failing the dataset fetch
raises, and the surrounding `run` loop counts the failure and continues
with the remaining datasets. -/
theorem claim_C6_strategy_order (env : download_map.WfsEnv Nat) (page_size : Nat)
    (fs fs2 : List Nat) (rest : List (download_map.WfsEnv Nat)) :
    (download_map.fetch_pages env.page page_size 0 0 [] = none →
      (env.one_shot = none ∨ env.one_shot = some []) →
      (env.layer_export = none ∨ env.layer_export = some []) →
      download_map.fetch_wfs_geojson env page_size = Except.error ()) ∧
    (∀ feats, download_map.fetch_pages env.page page_size 0 0 [] = some feats →
      download_map.fetch_wfs_geojson env page_size =
        Except.ok (feats, download_map.FetchSource.paginated)) ∧
    (download_map.fetch_pages env.page page_size 0 0 [] = none →
      env.one_shot = some fs → fs.isEmpty = false →
      download_map.fetch_wfs_geojson env page_size =
        Except.ok (fs, download_map.FetchSource.one_shot)) ∧
    (download_map.fetch_pages env.page page_size 0 0 [] = none →
      (env.one_shot = none ∨ env.one_shot = some []) →
      env.layer_export = some fs2 → fs2.isEmpty = false →
      download_map.fetch_wfs_geojson env page_size =
        Except.ok (fs2, download_map.FetchSource.layer_export)) ∧
    (download_map.fetch_wfs_geojson env page_size = Except.error () →
      download_map.run_datasets page_size (env :: rest) =
        ((download_map.run_datasets page_size rest).1,
         (download_map.run_datasets page_size rest).2.1 + 1,
         (download_map.run_datasets page_size rest).2.2)) := by
  refine ⟨?_, ?_, ?_, ?_, ?_⟩
  · intro hpag hos hle
    rcases hos with hos | hos <;> rcases hle with hle | hle <;>
      simp [download_map.fetch_wfs_geojson, hpag, hos, hle]
  · intro feats hpag
    simp [download_map.fetch_wfs_geojson, hpag]
  · intro hpag hos hfs
    simp [download_map.fetch_wfs_geojson, hpag, hos, hfs]
  · intro hpag hos hle hfs2
    rcases hos with hos | hos <;>
      simp [download_map.fetch_wfs_geojson, hpag, hos, hle, hfs2]
  · intro hf
    simp [download_map.run_datasets, hf]

/-- Witness for C6: a source whose first page is already empty and whose
one-shot answer has zero records errors out, and a run over just this
dataset counts one failure and no successes. -/
theorem claim_C6_strategy_order_witness :
    download_map.fetch_wfs_geojson
        (download_map.WfsEnv.mk (fun _ => some ([] : List Nat)) (some []) none) 5 =
      Except.error () ∧
    download_map.run_datasets 5
        [download_map.WfsEnv.mk (fun _ => some ([] : List Nat)) (some []) none] =
      (0, 1, []) := by
  have hpag : download_map.fetch_pages
      (download_map.WfsEnv.mk (fun _ => some ([] : List Nat)) (some []) none).page 5 0 0 [] =
      none :=
    fetch_pages_empty_page _ 5 0 0 [] rfl
  have h := claim_C6_strategy_order
    (download_map.WfsEnv.mk (fun _ => some ([] : List Nat)) (some []) none) 5 [] [] []
  have herr := h.1 hpag (Or.inr rfl) (Or.inl rfl)
  refine ⟨herr, ?_⟩
  have hrun := h.2.2.2.2 herr
  simpa using hrun

/-- Counterexample to C9 as stated: a raw record whose `id` key is
present but holds the empty string gives `_feature_id = ""` - the
identity field of the flattened row IS empty, against the claim that it
never is. -/
theorem claim_C9_counterexample :
    ((download_map.flatten_transmission_rows
        [download_map.Feature.mk (some (download_map.Jv.str "")) none []]).getD 0
        (fun _ => none)) "_feature_id" = some (download_map.Jv.str "") ∧
    download_map.jv_empty (download_map.Jv.str "") := by
  exact ⟨rfl, Or.inl rfl⟩

/-- C9 amended.  Normalization sets the identity field to the record's
native id whenever the `id` key is present (even when that value is
itself empty) and otherwise to the record's 1-based ordinal; the ordinal
fallback is never empty, so the identity field is non-empty provided
every present native id is non-empty. -/
theorem claim_C9_feature_id (i : Nat) (f : download_map.Feature) :
    (download_map.flatten_row i f) "_feature_id" =
      some (download_map.row_feature_id i f) ∧
    (f.id = none → download_map.row_feature_id i f = download_map.Jv.num (i : Int)) ∧
    (∀ v, f.id = some v → download_map.row_feature_id i f = v) ∧
    (f.id = none → ¬ download_map.jv_empty (download_map.row_feature_id i f)) ∧
    ((∀ v, f.id = some v → ¬ download_map.jv_empty v) →
      ¬ download_map.jv_empty (download_map.row_feature_id i f)) := by
  refine ⟨rfl, ?_, ?_, ?_, ?_⟩
  · intro h
    simp [download_map.row_feature_id, h]
  · intro v h
    simp [download_map.row_feature_id, h]
  · intro h
    simp [download_map.row_feature_id, h, download_map.jv_empty]
  · intro hv
    cases hid : f.id with
    | none =>
      simp [download_map.row_feature_id, hid, download_map.jv_empty]
    | some v =>
      have := hv v hid
      simpa [download_map.row_feature_id, hid] using this

/-- Witness for C9 (amended): a record without a native id at ordinal 1
gets the non-empty identity `1`. -/
theorem claim_C9_feature_id_witness :
    download_map.row_feature_id 1 (download_map.Feature.mk none none []) =
      download_map.Jv.num 1 ∧
    ¬ download_map.jv_empty
      (download_map.row_feature_id 1 (download_map.Feature.mk none none [])) := by
  exact ⟨(claim_C9_feature_id 1 (download_map.Feature.mk none none [])).2.1 rfl,
    (claim_C9_feature_id 1 (download_map.Feature.mk none none [])).2.2.2.1 rfl⟩
